import Mathlib

/-!
# Verification of the inline-edit lifecycle controller

A shallow embedding of `src/index.js` of the `inlineedit` component: a
three-state machine (`ready` / `editing` / `saving`) that governs which of
three visual nodes (the display element, the form, the spinner) occupies a
single container, together with the element normalizer, the default override
hooks, and the create/destroy wrapping of the display element.

The default hooks are embedded from the source:
* `parseValue el = trim(text(el))`
* `formatValue val el` sets the element's text to `trim(val)`
* `populateForm val form` sets the form's first input to `val`
* `processForm form` reads the form's first input
* `submitForm val done` is modelled by an explicit callback-delivery step,
  since the callback may fire synchronously or after arbitrary delay.

State mutations are pure state passing; every hook invocation and every
`emit` is recorded in an explicit trace so that ordering claims (what an
observer of a notification sees) are provable.
-/

namespace InlineEdit

/-- The three FSM states of the controller (`states` table, `src/index.js`
lines 256-307). -/
inductive StateName : Type
  | ready
  | editing
  | saving
deriving DecidableEq, Repr

/-- The three visual nodes an instance owns: `this.element` (the display
element), `this.form` and `this.spinner`. -/
inductive NodeId : Type
  | display
  | form
  | spinner
deriving DecidableEq, Repr

/-- The observable state of one widget instance.

* `state` — machina's current state name;
* `value` — `this.value`, the committed value;
* `children` — the children of `this.container` (the single mount slot);
* `displayText` — the text content of the display element (mutated by the
  default `formatValue`);
* `formValue` — the value of the form's first input (mutated by the default
  `populateForm`, read by the default `processForm`, and changed by the user
  typing);
* `submitted` — ghost field recording the value captured by the pending
  `submitForm` completion-callback closure (`val` in `saving._onEnter`). -/
structure Inst : Type where
  state : StateName
  value : String
  children : List NodeId
  displayText : String
  formValue : String
  submitted : Option String
deriving DecidableEq, Repr

/-- Notifications emitted on the instance (`this.emit(...)`): `saved` with no
payload, and `error` carrying the error object (of arbitrary type `ε`). -/
inductive Notice (ε : Type) : Type
  | saved
  | error (e : ε)
deriving DecidableEq, Repr

/-- One entry of the execution trace: a hook invocation (with the argument it
received), a `showElement` call, or an emitted notification together with the
snapshot of the instance at the moment listeners observe it. -/
inductive Item (ε : Type) : Type
  | showEl (n : NodeId)
  | formatValue (v : String)
  | populateForm (v : String)
  | processForm (v : String)
  | submitForm (v : String)
  | emit (n : Notice ε) (snap : Inst)
deriving DecidableEq, Repr

/-- `showElement(el)`: empties the container and appends `el`
(`src/index.js` lines 216-219). -/
def showElement (i : Inst) (n : NodeId) : Inst :=
  { i with children := [n] }

/-- Entering `ready` (`states.ready._onEnter`): if the display element is not
already a child of the container (`this.element.parentNode !== this.container`),
show it and run `formatValue(this.value, this.element)`; otherwise do
nothing. -/
def enterReady (ε : Type) (i : Inst) : Inst × List (Item ε) :=
  let i := { i with state := StateName.ready }
  if NodeId.display ∈ i.children then
    (i, [])
  else
    let i := showElement i NodeId.display
    ({ i with displayText := i.value.trim },
     [Item.showEl NodeId.display, Item.formatValue i.value])

/-- Entering `editing` (`states.editing._onEnter`): show the form and run
`populateForm(this.value, this.form)`. -/
def enterEditing (ε : Type) (i : Inst) : Inst × List (Item ε) :=
  let i := showElement { i with state := StateName.editing } NodeId.form
  ({ i with formValue := i.value },
   [Item.showEl NodeId.form, Item.populateForm i.value])

/-- Entering `saving` (`states.saving._onEnter`): read
`val = processForm(this.form)`, show the spinner, and invoke
`submitForm(val, done)`; the completion callback capturing `val` is now
pending (recorded in `submitted`). -/
def enterSaving (ε : Type) (i : Inst) : Inst × List (Item ε) :=
  let v := i.formValue
  ({ i with state := StateName.saving, children := [NodeId.spinner],
            submitted := some v },
   [Item.processForm v, Item.showEl NodeId.spinner, Item.submitForm v])

/-- `transition(newState)`: machina sets the state and runs the target
state's `_onEnter` handler. -/
def enterState (ε : Type) (i : Inst) : StateName → Inst × List (Item ε)
  | StateName.ready => enterReady ε i
  | StateName.editing => enterEditing ε i
  | StateName.saving => enterSaving ε i

/-- FSM input events (`this.handle(...)` triggers): `click`, `cancel`,
`submit` from the event proxy, and the synthetic `success`/`error` triggers
from the `submitForm` completion callback. -/
inductive Trigger (ε : Type) : Type
  | click
  | cancel
  | submit
  | success (v : String)
  | error (e : ε)
deriving DecidableEq, Repr

/-- Which triggers each state lists as accepted, read off the `states` table:
`ready` handles `click`; `editing` handles `cancel` and `submit`; `saving`
handles `success` and `error`. -/
def accepts (ε : Type) : StateName → Trigger ε → Bool
  | StateName.ready, Trigger.click => true
  | StateName.editing, Trigger.cancel => true
  | StateName.editing, Trigger.submit => true
  | StateName.saving, Trigger.success _ => true
  | StateName.saving, Trigger.error _ => true
  | _, _ => false

/-- `machina.Fsm#handle`: dispatch a trigger to the current state's handler;
a trigger the current state does not list is ignored. The handlers are the
bodies from the `states` table: `saving.success` sets `this.value`, emits
`saved`, then transitions to `ready`; `saving.error` emits `error` then
transitions to `editing`. The snapshot stored with each `emit` is the
instance at the moment the listeners run. -/
def handle (ε : Type) (i : Inst) : Trigger ε → Inst × List (Item ε)
  | Trigger.click =>
    match i.state with
    | StateName.ready => enterState ε i StateName.editing
    | _ => (i, [])
  | Trigger.cancel =>
    match i.state with
    | StateName.editing => enterState ε i StateName.ready
    | _ => (i, [])
  | Trigger.submit =>
    match i.state with
    | StateName.editing => enterState ε i StateName.saving
    | _ => (i, [])
  | Trigger.success v =>
    match i.state with
    | StateName.saving =>
      let i1 := { i with value := v }
      let r := enterState ε i1 StateName.ready
      (r.1, Item.emit Notice.saved i1 :: r.2)
    | _ => (i, [])
  | Trigger.error e =>
    match i.state with
    | StateName.saving =>
      let r := enterState ε i StateName.editing
      (r.1, Item.emit (Notice.error e) i :: r.2)
    | _ => (i, [])

/-- The body of the completion callback passed to `submitForm`
(`src/index.js` lines 289-295): with a truthy `err` it handles `error`,
otherwise it handles `success` with the second argument when defined and the
captured `val` otherwise. `captured` is the value the closure captured when
`saving` was entered. -/
def fireCallback (ε : Type) (i : Inst) (captured : String) (err : Option ε)
    (newVal : Option String) : Inst × List (Item ε) :=
  match err with
  | some e => handle ε i (Trigger.error e)
  | none => handle ε i (Trigger.success (newVal.getD captured))

/-- The user typing into the form's first input (external DOM mutation). -/
def typeForm (i : Inst) (s : String) : Inst :=
  { i with formValue := s }

/-- The instance right after `create` ran (value parsed via
`parseValue` = trimmed display text, display element wrapped into the
container) and before machina performs the transition into the initial
state. -/
def preInstance (d f : String) : Inst :=
  { state := StateName.ready, value := d.trim, children := [NodeId.display],
    displayText := d, formValue := f, submitted := none }

/-- A freshly constructed instance: `create` followed by machina's
transition into the initial state `s` (default `ready`). -/
def mkInstance (d f : String) (s : StateName) : Inst :=
  (enterState Unit (preInstance d f) s).1

/-- External events driving an instance: a trigger fed to `handle` (the
event proxy and any direct caller), a pending `submitForm` callback firing
with its captured value and arguments, a caller-forced `transition`, and the
user typing into the form. -/
inductive Event : Type
  | trig (t : Trigger Unit)
  | callback (captured : String) (err : Option Unit) (newVal : Option String)
  | force (s : StateName)
  | typeIn (s : String)

/-- One externally observable step of an instance. -/
def step (i : Inst) : Event → Inst × List (Item Unit)
  | Event.trig t => handle Unit i t
  | Event.callback c e v => fireCallback Unit i c e v
  | Event.force s => enterState Unit i s
  | Event.typeIn s => (typeForm i s, [])

/-- The states an instance can be in: freshly constructed (with any display
text, any initial form input value, any initial state), or reached from a
reachable state by one external event. -/
inductive Reachable : Inst → Prop
  | init (d f : String) (s : StateName) : Reachable (mkInstance d f s)
  | next (i : Inst) (e : Event) : Reachable i → Reachable (step i e).1

/-- The visual node that each state mounts. -/
def nodeFor : StateName → NodeId
  | StateName.ready => NodeId.display
  | StateName.editing => NodeId.form
  | StateName.saving => NodeId.spinner

/-- The notifications contained in a trace, in order. -/
def emitsOf (ε : Type) (tr : List (Item ε)) : List (Notice ε) :=
  tr.filterMap fun it =>
    match it with
    | Item.emit n _ => some n
    | _ => none

/-- The notifications of a trace paired with the instance snapshot the
listeners observed, in order. -/
def emitsWith (ε : Type) (tr : List (Item ε)) : List (Notice ε × Inst) :=
  tr.filterMap fun it =>
    match it with
    | Item.emit n s => some (n, s)
    | _ => none

/-- The arguments of the `populateForm` calls in a trace, in order. -/
def populateCalls (ε : Type) (tr : List (Item ε)) : List String :=
  tr.filterMap fun it =>
    match it with
    | Item.populateForm v => some v
    | _ => none

/-! ## Element normalizer (`normalizeElement`, `src/index.js` lines 194-208)
and template resolution during `initialize` (lines 228-246). -/

/-- A concrete DOM node as the normalizer produces it: either a pre-existing
node reference, or the tree materialized from a markup string by `domify`. -/
inductive Elem : Type
  | ref (id : Nat)
  | markup (s : String)
deriving DecidableEq, Repr

/-- `domify`: materializes a markup string into a node tree. -/
def domify (s : String) : Elem :=
  Elem.markup s

/-- A configuration value fed to the normalizer, classified the way `type(el)`
classifies it: a DOM element, a string, a function (invoked with the
controller — of type `γ` — as its execution context), or a value of any
other kind (`other` carries the kind's name, e.g. `"number"`). -/
inductive ElementSpec (γ : Type) : Type
  | node (e : Elem)
  | str (s : String)
  | func (f : γ → ElementSpec γ)
  | other (kind : String)

/-- Failure of the normalizer. `invalidConfiguration` models the thrown
`TypeError("string or element required")` — the spec's
`InvalidConfigurationError`; `stackOverflow` models exhausting the call
stack on an unbounded chain of functions returning functions. -/
inductive NormError : Type
  | invalidConfiguration (msg : String)
  | stackOverflow
deriving DecidableEq, Repr

/-- The error the normalizer raises on an input of any other kind. -/
def normFailure : NormError :=
  NormError.invalidConfiguration "string or element required"

/-- `normalizeElement(el)`: an element is returned unchanged, a string is run
through `domify`, a function is invoked with the controller `ctx` as context
and its result is normalized recursively (bounded only by stack depth, here
the explicit `fuel`), and anything else throws. -/
def normalizeElement (γ : Type) (ctx : γ) : Nat → ElementSpec γ → Except NormError Elem
  | _, ElementSpec.node e => Except.ok e
  | _, ElementSpec.str s => Except.ok (domify s)
  | Nat.succ fuel, ElementSpec.func f => normalizeElement γ ctx fuel (f ctx)
  | 0, ElementSpec.func _ => Except.error NormError.stackOverflow
  | _, ElementSpec.other _ => Except.error normFailure

/-- The three template properties `initialize` resolves through the
normalizer, in source order. -/
structure Templates (γ : Type) : Type where
  formElement : ElementSpec γ
  interfaceElement : ElementSpec γ
  spinnerElement : ElementSpec γ

/-- The template-resolution portion of `initialize`: `this.form`,
`this.interface` and `this.spinner` are each produced by `normalizeElement`;
the first failure aborts initialization with that error. -/
def initTemplates (γ : Type) (ctx : γ) (fuel : Nat) (t : Templates γ) :
    Except NormError (Elem × Elem × Elem) := do
  let f ← normalizeElement γ ctx fuel t.formElement
  let i ← normalizeElement γ ctx fuel t.interfaceElement
  let s ← normalizeElement γ ctx fuel t.spinnerElement
  return (f, i, s)

/-! ## Wrapping and teardown (`create`, lines 144-155, and `destroy`,
lines 161-170)

The DOM context around the display element: the children of its original
parent, the element's class list and text. `create` adds the classes
`"inlineedit"` (to the container) and `"inlineedit-content"` (to the
element), parses the value, and wraps the element in the container;
`destroy` removes the classes `"inlineedit"` and `"inlineedit-content"`
— both from the element — and puts the element back in the container's
place via `replaceChild`. -/

/-- A child of the display element's original parent: an unrelated sibling,
the display element itself, or the instance's container. -/
inductive PageChild : Type
  | otherNode (id : Nat)
  | elemAt
  | containerAt
deriving DecidableEq, Repr

/-- The DOM around an unwrapped display element. -/
structure Page : Type where
  siblings : List PageChild
  elemClasses : List String
  elemText : String
deriving DecidableEq, Repr

/-- The DOM of a mounted (constructed) instance, together with the parsed
value. -/
structure Mounted : Type where
  siblings : List PageChild
  containerClasses : List String
  containerChildren : List NodeId
  elemClasses : List String
  elemText : String
  value : String
deriving DecidableEq, Repr

/-- `classes(x).add(c)`: appends the class unless already present. -/
def addClass (cs : List String) (c : String) : List String :=
  if c ∈ cs then cs else cs ++ [c]

/-- `classes(x).remove(c)`: removes every occurrence of the class. -/
def removeClass (cs : List String) (c : String) : List String :=
  cs.filter fun x => x ≠ c

/-- Constructing an instance on the display element of `p`: `initialize`
creates a fresh `<div>` container, and `create` adds `"inlineedit"` to the
container, `"inlineedit-content"` to the element, sets
`this.value = parseValue(this.element)`, and wraps the element in the
container (the container takes the element's position in its parent and the
element becomes the container's child). -/
def construct (p : Page) : Mounted :=
  { siblings := p.siblings.map fun x =>
      if x = PageChild.elemAt then PageChild.containerAt else x
  , containerClasses := addClass [] "inlineedit"
  , containerChildren := [NodeId.display]
  , elemClasses := addClass p.elemClasses "inlineedit-content"
  , elemText := p.elemText
  , value := p.elemText.trim }

/-- `destroy()`: unbinds events, removes the classes `"inlineedit"` and
`"inlineedit-content"` from `this.element`, replaces the container with the
element in the parent, and deletes `this.value`. -/
def destroy (m : Mounted) : Page :=
  { siblings := m.siblings.map fun x =>
      if x = PageChild.containerAt then PageChild.elemAt else x
  , elemClasses := removeClass (removeClass m.elemClasses "inlineedit") "inlineedit-content"
  , elemText := m.elemText }

/-! ## Theorems -/

/-- Entering any state from a container holding a single node leaves the
container holding exactly the node that state mounts. -/
theorem enterState_mounts (ε : Type) (i : Inst) (n : NodeId) (s : StateName)
    (h : i.children = [n]) :
    (enterState ε i s).1.children = [nodeFor s] ∧ (enterState ε i s).1.state = s := by
  obtain ⟨st, v0, ch, dt, fv, sb⟩ := i
  change ch = [n] at h
  subst h
  cases s <;> cases n <;>
    simp [enterState, enterReady, enterEditing, enterSaving, showElement, nodeFor]

/-- `handle` preserves the mount invariant: the container's sole child is the
node determined by the current state. -/
theorem handle_mounts (ε : Type) (i : Inst) (t : Trigger ε)
    (h : i.children = [nodeFor i.state]) :
    (handle ε i t).1.children = [nodeFor (handle ε i t).1.state] := by
  obtain ⟨st, v0, ch, dt, fv, sb⟩ := i
  cases st <;> simp only [nodeFor] at h <;> change ch = _ at h <;> subst h <;>
    cases t <;>
    simp [handle, enterState, enterReady, enterEditing, enterSaving,
      showElement, nodeFor]

/-- Every external step preserves the mount invariant. -/
theorem step_mounts (i : Inst) (e : Event)
    (h : i.children = [nodeFor i.state]) :
    (step i e).1.children = [nodeFor (step i e).1.state] := by
  cases e with
  | trig t => exact handle_mounts Unit i t h
  | callback c err v =>
    cases err with
    | none => exact handle_mounts Unit i _ h
    | some u => exact handle_mounts Unit i _ h
  | force s =>
    have := enterState_mounts Unit i (nodeFor i.state) s h
    simp only [step]
    rw [this.1, this.2]
  | typeIn s => exact h

/-- C1: in every reachable state the container holds exactly the node the
current state mounts — the display element in `ready`, the form in
`editing`, the spinner in `saving` — so exactly one of the three is a child
of the container, fully determined by the state. -/
theorem reachable_container_determined (i : Inst) (h : Reachable i) :
    i.children = [nodeFor i.state] ∧
      (NodeId.display ∈ i.children ↔ i.state = StateName.ready) ∧
      (NodeId.form ∈ i.children ↔ i.state = StateName.editing) ∧
      (NodeId.spinner ∈ i.children ↔ i.state = StateName.saving) := by
  have main : i.children = [nodeFor i.state] := by
    induction h with
    | init d f s =>
      have := enterState_mounts Unit (preInstance d f) NodeId.display s rfl
      rw [mkInstance, this.1, this.2]
    | next j e hj ih => exact step_mounts j e ih
  refine ⟨main, ?_, ?_, ?_⟩ <;> rw [main] <;>
    cases hs : i.state <;> simp [nodeFor]

/-- Witness for C1 at a freshly constructed instance. -/
theorem reachable_container_determined_witness :
    (mkInstance "v" "f" StateName.ready).children
        = [nodeFor (mkInstance "v" "f" StateName.ready).state] ∧
      (NodeId.display ∈ (mkInstance "v" "f" StateName.ready).children
        ↔ (mkInstance "v" "f" StateName.ready).state = StateName.ready) ∧
      (NodeId.form ∈ (mkInstance "v" "f" StateName.ready).children
        ↔ (mkInstance "v" "f" StateName.ready).state = StateName.editing) ∧
      (NodeId.spinner ∈ (mkInstance "v" "f" StateName.ready).children
        ↔ (mkInstance "v" "f" StateName.ready).state = StateName.saving) :=
  reachable_container_determined _ (Reachable.init "v" "f" StateName.ready)

/-- A concrete instance sitting in `ready`. -/
def readyExample : Inst :=
  { state := StateName.ready, value := "old", children := [NodeId.display],
    displayText := "old", formValue := "field", submitted := none }

/-- A concrete instance sitting in `editing` with `"typed"` in the form. -/
def editingExample : Inst :=
  { state := StateName.editing, value := "old", children := [NodeId.form],
    displayText := "old", formValue := "typed", submitted := none }

/-- A concrete instance sitting in `saving` with a pending callback that
captured `"typed"`. -/
def savingExample : Inst :=
  { state := StateName.saving, value := "old", children := [NodeId.spinner],
    displayText := "old", formValue := "typed", submitted := some "typed" }

/-- C2: submitting from `editing` enters `saving` having run `processForm`
and passed its result to `submitForm`; when the completion callback later
fires without an error — even after the form has been changed to `typed` —
the machine reaches `ready` with `value` set to the callback's second
argument when defined, and otherwise to exactly the value `processForm`
returned when `saving` was entered. -/
theorem save_success_commits_captured (ε : Type) (i : Inst)
    (h : i.state = StateName.editing) (typed w : String) :
    (handle ε i Trigger.submit).1.state = StateName.saving ∧
    (handle ε i Trigger.submit).1.submitted = some i.formValue ∧
    Item.processForm (ε := ε) i.formValue ∈ (handle ε i Trigger.submit).2 ∧
    Item.submitForm (ε := ε) i.formValue ∈ (handle ε i Trigger.submit).2 ∧
    (fireCallback ε (typeForm (handle ε i Trigger.submit).1 typed)
        i.formValue none none).1.state = StateName.ready ∧
    (fireCallback ε (typeForm (handle ε i Trigger.submit).1 typed)
        i.formValue none none).1.value = i.formValue ∧
    (fireCallback ε (typeForm (handle ε i Trigger.submit).1 typed)
        i.formValue none (some w)).1.state = StateName.ready ∧
    (fireCallback ε (typeForm (handle ε i Trigger.submit).1 typed)
        i.formValue none (some w)).1.value = w := by
  obtain ⟨st, v0, ch, dt, fv, sb⟩ := i
  change st = _ at h
  subst h
  simp [handle, enterState, enterSaving, enterReady, enterEditing,
    fireCallback, typeForm, showElement]

/-- Witness for C2 at the concrete `editing` instance. -/
theorem save_success_commits_captured_witness :
    editingExample.state = StateName.editing ∧
    ((handle Nat editingExample Trigger.submit).1.state = StateName.saving ∧
    (handle Nat editingExample Trigger.submit).1.submitted = some editingExample.formValue ∧
    Item.processForm (ε := Nat) editingExample.formValue
        ∈ (handle Nat editingExample Trigger.submit).2 ∧
    Item.submitForm (ε := Nat) editingExample.formValue
        ∈ (handle Nat editingExample Trigger.submit).2 ∧
    (fireCallback Nat (typeForm (handle Nat editingExample Trigger.submit).1 "later")
        editingExample.formValue none none).1.state = StateName.ready ∧
    (fireCallback Nat (typeForm (handle Nat editingExample Trigger.submit).1 "later")
        editingExample.formValue none none).1.value = editingExample.formValue ∧
    (fireCallback Nat (typeForm (handle Nat editingExample Trigger.submit).1 "later")
        editingExample.formValue none (some "X")).1.state = StateName.ready ∧
    (fireCallback Nat (typeForm (handle Nat editingExample Trigger.submit).1 "later")
        editingExample.formValue none (some "X")).1.value = "X") :=
  ⟨rfl, save_success_commits_captured Nat editingExample rfl "later" "X"⟩

/-- C3: a completion callback firing with a truthy error while in `saving`
returns the machine to `editing`, leaves `value` unchanged, and emits the
`error` notification exactly once, carrying that same error object. -/
theorem save_error_returns_to_editing (ε : Type) (i : Inst)
    (h : i.state = StateName.saving) (c : String) (e : ε) (nv : Option String) :
    (fireCallback ε i c (some e) nv).1.state = StateName.editing ∧
    (fireCallback ε i c (some e) nv).1.value = i.value ∧
    emitsOf ε (fireCallback ε i c (some e) nv).2 = [Notice.error e] := by
  obtain ⟨st, v0, ch, dt, fv, sb⟩ := i
  change st = _ at h
  subst h
  simp [fireCallback, handle, enterState, enterEditing, showElement, emitsOf]

/-- Witness for C3 at the concrete `saving` instance. -/
theorem save_error_returns_to_editing_witness :
    savingExample.state = StateName.saving ∧
    ((fireCallback Nat savingExample "typed" (some 7) none).1.state = StateName.editing ∧
    (fireCallback Nat savingExample "typed" (some 7) none).1.value = savingExample.value ∧
    emitsOf Nat (fireCallback Nat savingExample "typed" (some 7) none).2
        = [Notice.error 7]) :=
  ⟨rfl, save_error_returns_to_editing Nat savingExample rfl "typed" 7 none⟩

/-- C6: from `ready`, the `click` trigger (to `editing`) followed by the
`cancel` trigger leaves `value` unchanged, restores the display element as
the container's only child, and re-renders it: the cancel step's trace is
exactly `showElement(display)` then `formatValue(value)`, and the display
text becomes the trimmed value. -/
theorem cancel_round_trip (ε : Type) (i : Inst) (h : i.state = StateName.ready) :
    (handle ε (handle ε i Trigger.click).1 Trigger.cancel).1.state = StateName.ready ∧
    (handle ε (handle ε i Trigger.click).1 Trigger.cancel).1.value = i.value ∧
    (handle ε (handle ε i Trigger.click).1 Trigger.cancel).1.children = [NodeId.display] ∧
    (handle ε (handle ε i Trigger.click).1 Trigger.cancel).1.displayText = i.value.trim ∧
    (handle ε (handle ε i Trigger.click).1 Trigger.cancel).2 =
      [Item.showEl NodeId.display, Item.formatValue i.value] := by
  obtain ⟨st, v0, ch, dt, fv, sb⟩ := i
  change st = _ at h
  subst h
  simp [handle, enterState, enterReady, enterEditing, showElement]

/-- Witness for C6 at the concrete `ready` instance. -/
theorem cancel_round_trip_witness :
    readyExample.state = StateName.ready ∧
    ((handle Nat (handle Nat readyExample Trigger.click).1 Trigger.cancel).1.state
        = StateName.ready ∧
    (handle Nat (handle Nat readyExample Trigger.click).1 Trigger.cancel).1.value
        = readyExample.value ∧
    (handle Nat (handle Nat readyExample Trigger.click).1 Trigger.cancel).1.children
        = [NodeId.display] ∧
    (handle Nat (handle Nat readyExample Trigger.click).1 Trigger.cancel).1.displayText
        = readyExample.value.trim ∧
    (handle Nat (handle Nat readyExample Trigger.click).1 Trigger.cancel).2 =
      [Item.showEl NodeId.display, Item.formatValue readyExample.value]) :=
  ⟨rfl, cancel_round_trip Nat readyExample rfl⟩

/-- C5: a trigger the current state does not list as accepted — including a
stale `submitForm` completion callback firing after the machine has left
`saving` — is a no-op: the instance is returned unchanged (state, value,
container children and all), and the trace is empty (no notification, no
hook call). -/
theorem unaccepted_trigger_noop (ε : Type) (i : Inst) :
    (∀ t : Trigger ε, accepts ε i.state t = false → handle ε i t = (i, [])) ∧
    (i.state ≠ StateName.saving →
      ∀ (c : String) (err : Option ε) (nv : Option String),
        fireCallback ε i c err nv = (i, [])) := by
  constructor
  · intro t ht
    cases t <;> cases hs : i.state <;> simp_all [accepts, handle]
  · intro hs c err nv
    cases err <;> cases hst : i.state <;> simp_all [fireCallback, handle]

/-- Witness for C5: a `cancel` in `ready` and a stale success callback in
`ready` are both no-ops. -/
theorem unaccepted_trigger_noop_witness :
    (accepts Nat readyExample.state Trigger.cancel = false ∧
      handle Nat readyExample Trigger.cancel = (readyExample, [])) ∧
    (readyExample.state ≠ StateName.saving ∧
      fireCallback Nat readyExample "typed" none none = (readyExample, [])) :=
  ⟨⟨rfl, (unaccepted_trigger_noop Nat readyExample).1 Trigger.cancel rfl⟩,
   ⟨by decide,
    (unaccepted_trigger_noop Nat readyExample).2 (by decide) "typed" none none⟩⟩

/-- C8 (amended): on a successful save the `saved` notification fires after
`value` has been updated to the committed value but **before** the
transition to `ready` is initiated: `saved` is the first trace entry, it is
the only notification, and its snapshot carries the new value while still in
state `saving` (the observer sees the spinner mounted, not the ready
transition under way). -/
theorem saved_emission_order (ε : Type) (i : Inst)
    (h : i.state = StateName.saving) (v : String) :
    (handle ε i (Trigger.success v)).2.head? =
      some (Item.emit Notice.saved { i with value := v }) ∧
    emitsWith ε (handle ε i (Trigger.success v)).2 =
      [(Notice.saved, { i with value := v })] ∧
    ({ i with value := v } : Inst).value = v ∧
    ({ i with value := v } : Inst).state = StateName.saving ∧
    (handle ε i (Trigger.success v)).1.state = StateName.ready := by
  obtain ⟨st, v0, ch, dt, fv, sb⟩ := i
  change st = _ at h
  subst h
  by_cases hd : NodeId.display ∈ ch <;>
    refine ⟨?_, ?_, rfl, rfl, ?_⟩ <;>
      simp [handle, enterState, enterReady, showElement, emitsWith, hd]

/-- Witness for C8 (amended) at the concrete `saving` instance. -/
theorem saved_emission_order_witness :
    savingExample.state = StateName.saving ∧
    ((handle Nat savingExample (Trigger.success "typed")).2.head? =
      some (Item.emit Notice.saved { savingExample with value := "typed" }) ∧
    emitsWith Nat (handle Nat savingExample (Trigger.success "typed")).2 =
      [(Notice.saved, { savingExample with value := "typed" })] ∧
    ({ savingExample with value := "typed" } : Inst).value = "typed" ∧
    ({ savingExample with value := "typed" } : Inst).state = StateName.saving ∧
    (handle Nat savingExample (Trigger.success "typed")).1.state = StateName.ready) :=
  ⟨rfl, saved_emission_order Nat savingExample rfl "typed"⟩

/-- Counterexample to C8 as stated: at a concrete successful save the sole
`saved` emission is observed with the machine still in `saving` and the
spinner still mounted — the transition to `ready` has not been initiated
when `saved` fires. -/
theorem saved_fires_before_ready_transition :
    emitsWith Unit (handle Unit savingExample (Trigger.success "typed")).2 =
      [(Notice.saved, { savingExample with value := "typed" })] ∧
    ({ savingExample with value := "typed" } : Inst).state ≠ StateName.ready ∧
    ({ savingExample with value := "typed" } : Inst).children = [NodeId.spinner] := by
  refine ⟨?_, by decide, by decide⟩
  simp [handle, savingExample, enterState, enterReady, showElement, emitsWith]

/-- C9: entering `ready` from a container holding the single node `n` is a
pure idempotence guard: when `n` is the display element nothing happens but
the state change (no DOM change, empty trace, so no `formatValue` call);
when it is not, the display element is shown and `formatValue(value)` runs,
in that order. -/
theorem ready_entry_guard (ε : Type) (i : Inst) (n : NodeId)
    (h : i.children = [n]) :
    (n = NodeId.display →
      enterState ε i StateName.ready = ({ i with state := StateName.ready }, [])) ∧
    (n ≠ NodeId.display →
      enterState ε i StateName.ready =
        ({ i with state := StateName.ready, children := [NodeId.display],
                  displayText := i.value.trim },
         [Item.showEl NodeId.display, Item.formatValue i.value])) := by
  obtain ⟨st, v0, ch, dt, fv, sb⟩ := i
  change ch = [n] at h
  subst h
  constructor
  · intro hn
    subst hn
    simp [enterState, enterReady, showElement]
  · intro hn
    cases n <;> simp_all [enterState, enterReady, showElement]

/-- Witness for C9: the guard fires on a container already holding the
display element, and not on one holding the form. -/
theorem ready_entry_guard_witness :
    (readyExample.children = [NodeId.display] ∧
      enterState Nat readyExample StateName.ready =
        ({ readyExample with state := StateName.ready }, [])) ∧
    (editingExample.children = [NodeId.form] ∧
      enterState Nat editingExample StateName.ready =
        ({ editingExample with state := StateName.ready,
                               children := [NodeId.display],
                               displayText := editingExample.value.trim },
         [Item.showEl NodeId.display, Item.formatValue editingExample.value])) :=
  ⟨⟨rfl, (ready_entry_guard Nat readyExample NodeId.display rfl).1 rfl⟩,
   ⟨rfl, (ready_entry_guard Nat editingExample NodeId.form rfl).2 (by decide)⟩⟩

/-- C10: when a save fails, the return to `editing` repopulates the form via
`populateForm` with the committed `value` — `populateForm` is called exactly
once, with `value`, and never with the value the failed submission had
extracted (when the two differ). -/
theorem failed_save_repopulates_committed (ε : Type) (i : Inst)
    (h : i.state = StateName.saving) (c : String) (e : ε) (nv : Option String) :
    (fireCallback ε i c (some e) nv).1.formValue = i.value ∧
    populateCalls ε (fireCallback ε i c (some e) nv).2 = [i.value] ∧
    (c ≠ i.value →
      Item.populateForm (ε := ε) c ∉ (fireCallback ε i c (some e) nv).2) := by
  obtain ⟨st, v0, ch, dt, fv, sb⟩ := i
  change st = _ at h
  subst h
  refine ⟨?_, ?_, ?_⟩ <;>
    simp [fireCallback, handle, enterState, enterEditing, showElement,
      populateCalls]

/-- Witness for C10 at the concrete `saving` instance, whose committed value
`"old"` differs from the submitted `"typed"`. -/
theorem failed_save_repopulates_committed_witness :
    savingExample.state = StateName.saving ∧
    ((fireCallback Nat savingExample "typed" (some 7) none).1.formValue
        = savingExample.value ∧
    populateCalls Nat (fireCallback Nat savingExample "typed" (some 7) none).2
        = [savingExample.value] ∧
    ("typed" ≠ savingExample.value →
      Item.populateForm (ε := Nat) "typed"
        ∉ (fireCallback Nat savingExample "typed" (some 7) none).2)) :=
  ⟨rfl, failed_save_repopulates_committed Nat savingExample rfl "typed" 7 none⟩

/-- C4: the normalizer returns node inputs unchanged, materializes strings
through `domify`, invokes functions with the controller as context and
normalizes their result recursively, and fails on any other input kind with
the configuration error; consequently a template property of another kind
makes template resolution during initialization fail with that same error
(given that the properties resolved before it succeed). -/
theorem normalizer_rejects_other (γ : Type) (ctx : γ) (fuel : Nat) (k : String)
    (e : Elem) (s : String) (f : γ → ElementSpec γ) (t : Templates γ) :
    (normalizeElement γ ctx fuel (ElementSpec.other k) = Except.error normFailure) ∧
    (normalizeElement γ ctx fuel (ElementSpec.node e) = Except.ok e) ∧
    (normalizeElement γ ctx fuel (ElementSpec.str s) = Except.ok (domify s)) ∧
    (normalizeElement γ ctx (fuel + 1) (ElementSpec.func f)
        = normalizeElement γ ctx fuel (f ctx)) ∧
    (t.formElement = ElementSpec.other k →
      initTemplates γ ctx fuel t = Except.error normFailure) ∧
    (∀ fe, normalizeElement γ ctx fuel t.formElement = Except.ok fe →
      t.interfaceElement = ElementSpec.other k →
      initTemplates γ ctx fuel t = Except.error normFailure) ∧
    (∀ fe ie, normalizeElement γ ctx fuel t.formElement = Except.ok fe →
      normalizeElement γ ctx fuel t.interfaceElement = Except.ok ie →
      t.spinnerElement = ElementSpec.other k →
      initTemplates γ ctx fuel t = Except.error normFailure) := by
  refine ⟨?_, ?_, ?_, rfl, ?_, ?_, ?_⟩
  · cases fuel <;> rfl
  · cases fuel <;> rfl
  · cases fuel <;> rfl
  · intro hf
    have ho : normalizeElement γ ctx fuel t.formElement = Except.error normFailure := by
      rw [hf]; cases fuel <;> rfl
    simp [initTemplates, ho, Bind.bind, Except.bind]
  · intro fe hfe hi
    have ho : normalizeElement γ ctx fuel t.interfaceElement
        = Except.error normFailure := by
      rw [hi]; cases fuel <;> rfl
    simp [initTemplates, hfe, ho, Bind.bind, Except.bind]
  · intro fe ie hfe hie hs
    have ho : normalizeElement γ ctx fuel t.spinnerElement
        = Except.error normFailure := by
      rw [hs]; cases fuel <;> rfl
    simp [initTemplates, hfe, hie, ho, Bind.bind, Except.bind]

/-- Witness for C4: a numeric `spinnerElement` (kind `"number"`) is rejected
and aborts template resolution, with the form and the interface templates —
a function producing markup, and a node reference — resolving fine. -/
theorem normalizer_rejects_other_witness :
    (normalizeElement Nat 0 5 (ElementSpec.other "number") = Except.error normFailure) ∧
    (normalizeElement Nat 0 5 (ElementSpec.node (Elem.ref 3)) = Except.ok (Elem.ref 3)) ∧
    (normalizeElement Nat 0 5 (ElementSpec.str "<form></form>")
        = Except.ok (domify "<form></form>")) ∧
    (normalizeElement Nat 0 (5 + 1) (ElementSpec.func fun _ => ElementSpec.str "<form></form>")
        = normalizeElement Nat 0 5
            ((fun _ => ElementSpec.str "<form></form>") 0)) ∧
    (initTemplates Nat 0 5
        { formElement := ElementSpec.func fun _ => ElementSpec.str "<form></form>"
        , interfaceElement := ElementSpec.node (Elem.ref 3)
        , spinnerElement := ElementSpec.other "number" }
      = Except.error normFailure) := by
  have h := normalizer_rejects_other Nat 0 5 "number" (Elem.ref 3) "<form></form>"
    (fun _ => ElementSpec.str "<form></form>")
    { formElement := ElementSpec.func fun _ => ElementSpec.str "<form></form>"
    , interfaceElement := ElementSpec.node (Elem.ref 3)
    , spinnerElement := ElementSpec.other "number" }
  exact ⟨h.1, h.2.1, h.2.2.1, h.2.2.2.1,
    h.2.2.2.2.2.2 (Elem.markup "<form></form>") (Elem.ref 3) rfl rfl rfl⟩

/-- `removeClass` leaves a class list without the class untouched. -/
theorem removeClass_of_not_mem (cs : List String) (c : String) (h : c ∉ cs) :
    removeClass cs c = cs := by
  rw [removeClass, List.filter_eq_self]
  intro a ha
  simp only [ne_eq, decide_eq_true_eq]
  rintro rfl
  exact h ha

/-- `removeClass` distributes over appending. -/
theorem removeClass_append (a b : List String) (c : String) :
    removeClass (a ++ b) c = removeClass a c ++ removeClass b c := by
  simp [removeClass, List.filter_append]

/-- Removing a class from just that class leaves nothing. -/
theorem removeClass_singleton_self (c : String) : removeClass [c] c = [] := by
  simp [removeClass]

/-- Unwrapping after wrapping restores the parent's child list, provided no
stray container marker was present. -/
theorem wrap_unwrap_siblings (l : List PageChild)
    (h : PageChild.containerAt ∉ l) :
    List.map (fun x => if x = PageChild.containerAt then PageChild.elemAt else x)
      (List.map (fun x => if x = PageChild.elemAt then PageChild.containerAt else x) l)
      = l := by
  induction l with
  | nil => rfl
  | cons a l ih =>
    simp only [List.mem_cons, not_or] at h
    rcases a with id | _ | _
    · simp [ih h.2]
    · simp [ih h.2]
    · exact absurd rfl (fun hc => h.1 hc.symm)

/-- The round trip of C7 does hold when the display element does not already
carry the component's own class names and no stray container marker sits
among the siblings: construct, destroy, construct reproduces the mounted
structure exactly. -/
theorem construct_destroy_round_trip (p : Page)
    (h1 : PageChild.containerAt ∉ p.siblings)
    (h2 : "inlineedit" ∉ p.elemClasses)
    (h3 : "inlineedit-content" ∉ p.elemClasses) :
    construct (destroy (construct p)) = construct p := by
  obtain ⟨sibs, cls, txt⟩ := p
  simp only at h1 h2 h3
  have hclsfull : removeClass (removeClass (addClass cls "inlineedit-content")
      "inlineedit") "inlineedit-content" = cls := by
    rw [addClass, if_neg h3]
    rw [removeClass_of_not_mem (cls ++ ["inlineedit-content"]) "inlineedit"
      (by
        intro hmem
        rcases List.mem_append.mp hmem with hmem | hmem
        · exact h2 hmem
        · revert hmem; decide)]
    rw [removeClass_append, removeClass_of_not_mem cls _ h3,
      removeClass_singleton_self, List.append_nil]
  simp only [construct, destroy]
  rw [hclsfull, wrap_unwrap_siblings sibs h1]

/-- C7 failing input: a display element that itself carries the class
`"inlineedit"`. -/
def pageWithOwnClass : Page :=
  { siblings := [PageChild.otherNode 0, PageChild.elemAt]
  , elemClasses := ["inlineedit"]
  , elemText := "Hello" }

/-- C7 (code bug): `destroy` removes the class `"inlineedit"` from the
display element although `create` added it to the container, so on an
element that originally carries `"inlineedit"` the destroy/reconstruct round
trip loses that class and does not reproduce the initial mounted DOM —
contradicting `destroy`'s stated contract of restoring the element to its
original state. -/
theorem destroy_strips_preexisting_class :
    "inlineedit" ∈ (construct pageWithOwnClass).elemClasses ∧
    "inlineedit" ∈ pageWithOwnClass.elemClasses ∧
    "inlineedit" ∉ (destroy (construct pageWithOwnClass)).elemClasses ∧
    "inlineedit" ∉ (construct (destroy (construct pageWithOwnClass))).elemClasses ∧
    construct (destroy (construct pageWithOwnClass)) ≠ construct pageWithOwnClass := by
  refine ⟨by decide, by decide, by decide, by decide, ?_⟩
  intro hcontra
  have : "inlineedit" ∈ (construct (destroy (construct pageWithOwnClass))).elemClasses := by
    rw [hcontra]; decide
  exact absurd this (by decide)

end InlineEdit
